import Mathlib

/-!
Verification of the NL-to-SQL compilation and safe-execution pipeline of the
portal-academico-ai repository.

Python strings are modelled as `List Char`; Python dicts (`user_context`,
`params`) as insertion-ordered association lists `List (String × String)`
(dict values reaching these code paths are strings, so the str-coercion pass
in `sanitize_and_parameterize_sql` is the identity and is modelled as such).
Network / database / LLM effects are passed in as explicit outcome arguments.
-/

namespace Portal

/-- Python `str` modelled as a list of characters. -/
abbrev PyStr := List Char

/-- Shorthand: character list of a Lean string literal. -/
def str (s : String) : PyStr := s.data

/-- Insertion-ordered string-valued dict (`user_context`, `params`). -/
abbrev Dict := List (String × String)

/-- Python `key in d`. -/
def dictHas (d : Dict) (k : String) : Bool := d.any (fun kv => kv.1 == k)

/-- Python `d[key]` / `d.get(key)` (first binding wins; dict keys are unique). -/
def dictFind (d : Dict) (k : String) : Option String :=
  (d.find? (fun kv => kv.1 == k)).map (fun kv => kv.2)

/-- Python `d.get(key, default)`. -/
def dictGetD (d : Dict) (k : String) (dflt : String) : String :=
  match dictFind d k with
  | some v => v
  | none => dflt

/-- Python `d[key] = v`: update in place if the key exists, else append. -/
def dictSet (d : Dict) (k v : String) : Dict :=
  if dictHas d k then d.map (fun kv => if kv.1 == k then (k, v) else kv)
  else d ++ [(k, v)]

/-- Python `del d[key]`. -/
def dictDel (d : Dict) (k : String) : Dict :=
  d.filter (fun kv => !(kv.1 == k))

/-- `pat` is a prefix of `l` (Python `s.startswith`). -/
def startsWithL : List Char → List Char → Bool
  | [], _ => true
  | _ :: _, [] => false
  | p :: ps, c :: cs => p == c && startsWithL ps cs

/-- Python `pat in s` (substring containment). -/
def containsSub (pat : List Char) : List Char → Bool
  | [] => pat.isEmpty
  | c :: rest => startsWithL pat (c :: rest) || containsSub pat rest

/-- Python `s.replace(pat, repl)`: replace every (leftmost, non-overlapping)
occurrence.  Structural recursion on a fuel that bounds the text length (each
step consumes at least one character, so the fuel is never exhausted). -/
def replaceAllGo (pat repl : List Char) : Nat → List Char → List Char
  | _, [] => []
  | 0, l => l
  | fuel + 1, c :: rest =>
    if startsWithL pat (c :: rest) && !pat.isEmpty then
      repl ++ replaceAllGo pat repl fuel (List.drop (pat.length - 1) rest)
    else
      c :: replaceAllGo pat repl fuel rest

/-- Python `s.replace(pat, repl)`.  The patterns used by the pipeline are
never empty. -/
def replaceAll (pat repl l : List Char) : List Char := replaceAllGo pat repl l.length l

/-- Python `s.lower()` (inputs here are ASCII-cased). -/
def lowerL (l : List Char) : List Char := l.map Char.toLower

/-- Python `\s` for `re` on ASCII text. -/
def isPySpace (c : Char) : Bool :=
  c == ' ' || c == '\t' || c == '\n' || c == '\r' || c == '\x0b' || c == '\x0c'

/-- Python `\w` (regex word character) on ASCII text. -/
def isWordChar (c : Char) : Bool := c.isAlphanum || c == '_'

/-- Python `s.rstrip(";")`. -/
def rstripChar (c : Char) (l : List Char) : List Char :=
  (l.reverse.dropWhile (fun d => d == c)).reverse

/-- Python `s.rstrip()` (trailing whitespace). -/
def rstripWS (l : List Char) : List Char :=
  (l.reverse.dropWhile isPySpace).reverse

/-- Python `s.endswith(";")` — `suf` is a suffix of `l`. -/
def endsWithL (suf l : List Char) : Bool := startsWithL suf.reverse l.reverse

/-!
`sanitize_and_parameterize_sql` (src/database/supabase_client.py, lines
246-341), transcribed branch by branch.  The `user_id if 'user_id' in
locals() else "201268"` expressions always take the `"201268"` arm: no local
named `user_id` ever exists in that function.
-/

/-- Lines 264-276: the `{RA}` placeholder. -/
def sanitizeStepRA (sql : PyStr) (ctx : Dict) (ps : Dict) : PyStr × Dict :=
  if containsSub (str "{RA}") sql then
    match dictFind ctx "user_id" with
    | some v => (replaceAll (str "{RA}") (str ":ra") sql, dictSet ps "ra" v)
    | none =>
      match dictFind ctx "RA" with
      | some v => (replaceAll (str "{RA}") (str ":ra") sql, dictSet ps "ra" v)
      | none => (replaceAll (str "{RA}") (str ":ra") sql, dictSet ps "ra" "201268")
  else (sql, ps)

/-- Lines 278-288: a bare `?` after an RA predicate only binds a parameter. -/
def sanitizeStepQm (sql : PyStr) (ctx : Dict) (ps : Dict) : Dict :=
  if containsSub (str "m.ra = ?") sql || containsSub (str "ra = ?") sql then
    match dictFind ctx "user_id" with
    | some v => dictSet ps "ra" v
    | none =>
      match dictFind ctx "RA" with
      | some v => dictSet ps "ra" v
      | none => dictSet ps "ra" "201268"
  else ps

/-- Lines 290-298: the `{{user_id}}` placeholder (left in place when neither
`user_id` nor `RA` is in the context). -/
def sanitizeStepUserId (sql : PyStr) (ctx : Dict) (ps : Dict) : PyStr × Dict :=
  if containsSub (str "{{user_id}}") sql then
    match dictFind ctx "user_id" with
    | some v => (replaceAll (str "{{user_id}}") (str ":user_id") sql, dictSet ps "user_id" v)
    | none =>
      match dictFind ctx "RA" with
      | some v => (replaceAll (str "{{user_id}}") (str ":user_id") sql, dictSet ps "user_id" v)
      | none => (sql, ps)
  else (sql, ps)

/-- Lines 300-313: `{{periodo_atual}}`, `{{disciplina_id}}`, `{{RA}}`,
each replaced only when the key is present in the context. -/
def sanitizeStepKey (key : String) (sql : PyStr) (ctx : Dict) (ps : Dict) : PyStr × Dict :=
  if containsSub (str "\x7b\x7b" ++ key.data ++ str "\x7d\x7d") sql then
    match dictFind ctx key with
    | some v =>
      (replaceAll (str "\x7b\x7b" ++ key.data ++ str "\x7d\x7d") (str ":" ++ key.data) sql,
       dictSet ps key v)
    | none => (sql, ps)
  else (sql, ps)

/-- Lines 315-321: the dynamic pass over every context key. -/
def sanitizeDynamic (ctx : Dict) (sql : PyStr) (ps : Dict) : PyStr × Dict :=
  ctx.foldl
    (fun acc kv =>
      if containsSub (str "\x7b\x7b" ++ kv.1.data ++ str "\x7d\x7d") acc.1 then
        (replaceAll (str "\x7b\x7b" ++ kv.1.data ++ str "\x7d\x7d") (str ":" ++ kv.1.data) acc.1,
         dictSet acc.2 kv.1 kv.2)
      else acc)
    (sql, ps)

/-- `sanitize_and_parameterize_sql(sql, user_context)` (lines 246-341).
The value-normalisation pass (lines 323-334) is the identity on the
string-valued dicts modelled here.  Lines 336-339 add the dummy parameter. -/
def sanitize_and_parameterize_sql (sql0 : PyStr) (ctx : Dict) : PyStr × Dict :=
  let r1 := sanitizeStepRA sql0 ctx []
  let ps2 := sanitizeStepQm r1.1 ctx r1.2
  let r3 := sanitizeStepUserId r1.1 ctx ps2
  let r4 := sanitizeStepKey "periodo_atual" r3.1 ctx r3.2
  let r5 := sanitizeStepKey "disciplina_id" r4.1 ctx r4.2
  let r6 := sanitizeStepKey "RA" r5.1 ctx r5.2
  let r7 := sanitizeDynamic ctx r6.1 r6.2
  if r7.2.isEmpty then (r7.1, [("dummy", "1")]) else r7

/-!
`execute_query` (src/database/supabase_client.py, lines 343-545).  The regular
expressions are compiled to explicit scanners.  In `re`, `$` matches at the end
of the string or just before a single final newline; where a pattern can match
a proper suffix, the scanner returns the unmatched leftover.
-/

/-- `$` of `re`: end of input, or just before one final newline. -/
def reEnd : List Char → Option (List Char)
  | [] => some []
  | c :: r => if c == '\n' && r.isEmpty then some (c :: r) else none

/-- After the digits of `LIMIT\s+\d+`: the `\s*;?$` tail.  Greedy `\s*` with
the usual backtracking into `;?$`. -/
def limTail : List Char → Option (List Char)
  | [] => some []
  | c :: r =>
    if isPySpace c then
      match limTail r with
      | some lf => some lf
      | none => reEnd (c :: r)
    else if c == ';' then reEnd r
    else reEnd (c :: r)

/-- Inside `\d+` (at least one digit already consumed). -/
def limDigitsRest : List Char → Option (List Char)
  | [] => some []
  | c :: r => if c.isDigit then limDigitsRest r else limTail (c :: r)

/-- Inside `\s+` (at least one space already consumed), then `\d+...`. -/
def limSpacesRest : List Char → Option (List Char)
  | [] => none
  | c :: r =>
    if isPySpace c then limSpacesRest r
    else if c.isDigit then limDigitsRest r
    else none

/-- `\s+\d+\s*;?$` (the part of the LIMIT pattern after the keyword). -/
def limSpaces : List Char → Option (List Char)
  | [] => none
  | c :: r => if isPySpace c then limSpacesRest r else none

/-- After `LIM`: expects `IT` then the spaces. -/
def mLimI2 : List Char → Option (List Char)
  | c :: r => if c == 'I' then (match r with
      | d :: r2 => if d == 'T' then limSpaces r2 else none
      | [] => none)
    else none
  | [] => none

/-- After `LI`: expects `M` then `IT...`. -/
def mLimM : List Char → Option (List Char)
  | c :: r => if c == 'M' then mLimI2 r else none
  | [] => none

/-- After `L`: expects `I` then `MIT...`. -/
def mLimI : List Char → Option (List Char)
  | c :: r => if c == 'I' then mLimM r else none
  | [] => none

/-- `LIMIT\s+\d+\s*;?$` attempted at the current position (the `\b` is the
caller's concern); `some lf` returns the unmatched leftover. -/
def matchLimit : List Char → Option (List Char)
  | c :: r => if c == 'L' then mLimI r else none
  | [] => none

/-- The `\b` before `LIMIT`: start of string or a preceding non-word char. -/
def boundaryOk : Option Char → Bool
  | none => true
  | some p => !isWordChar p

/-- `re.sub(r'\bLIMIT\s+\d+\s*;?$', '', sql)` (line 361), scanning left to
right with the word boundary tracked through the previous character. -/
def stripLimitAux : Option Char → List Char → List Char
  | _, [] => []
  | prev, c :: rest =>
    match (if boundaryOk prev then matchLimit (c :: rest) else none) with
    | some lf => lf
    | none => c :: stripLimitAux (some c) rest

/-- Line 361: remove a trailing row-limit clause from the statement. -/
def stripTrailingLimit (sql : PyStr) : PyStr := stripLimitAux none sql

/-- Lines 369-376: string values are formatted as quoted literals. -/
def quoteVal (v : String) : PyStr := '\'' :: v.data ++ ['\'']

/-- Lines 363-379 (continued): the per-key replacement loop. -/
def substNamedParams (q : PyStr) (ps : Dict) : PyStr :=
  ps.foldl (fun acc kv => replaceAll (str ":" ++ kv.1.data) (quoteVal kv.2) acc) q

/-- `re.findall(r'\{(\w+)\}', q)` (line 382), with a fuel that bounds the
text length. -/
def findBraceVarsGo : Nat → List Char → List (List Char)
  | _, [] => []
  | 0, _ => []
  | fuel + 1, c :: rest =>
    if c == '{' then
      let run := rest.takeWhile isWordChar
      if !run.isEmpty && startsWithL ['}'] (rest.drop run.length) then
        run :: findBraceVarsGo fuel (rest.drop (run.length + 1))
      else findBraceVarsGo fuel rest
    else findBraceVarsGo fuel rest

/-- `re.findall(r'\{(\w+)\}', q)` (line 382): the list of brace-variables. -/
def findBraceVars (l : List Char) : List (List Char) := findBraceVarsGo l.length l

/-- Lines 384-398: substitute each brace-variable whose value can be found in
the parameters (or, for `RA`/`ra`, from `user_id`) as a quoted literal. -/
def substBraceVars (q : PyStr) (ps : Dict) (user_id : String) : PyStr :=
  (findBraceVars q).foldl
    (fun acc v =>
      let vval : Option String :=
        match dictFind ps (String.mk (lowerL v)) with
        | some x => some x
        | none =>
          match dictFind ps (String.mk v) with
          | some x => some x
          | none => if v == str "RA" || v == str "ra" then some user_id else none
      match vval with
      | some x => replaceAll ('{' :: v ++ ['}']) (quoteVal x) acc
      | none => acc)
    q

/-- Lines 400-417: rewrite `d.id = ?` into a hard-coded course-name predicate
guessed from the statement text, or drop the conjunct. -/
def handleDId (q : PyStr) : PyStr :=
  if containsSub (str "d.id = ?") q then
    if containsSub (str "Sistemas Operacionais") q then
      replaceAll (str "d.id = ?") (str "d.nome = 'Sistemas Operacionais'") q
    else if containsSub (str "Banco de Dados") q then
      replaceAll (str "d.id = ?") (str "d.nome = 'Banco de Dados'") q
    else if containsSub (str "Cálculo") q || containsSub (str "Calculo") q then
      replaceAll (str "d.id = ?") (str "d.nome = 'Cálculo I'") q
    else if containsSub (str "Teoria") q && containsSub (str "Computação") q then
      replaceAll (str "d.id = ?") (str "d.nome = 'Teoria da Computação'") q
    else if containsSub (str "Algoritmos") q then
      replaceAll (str "d.id = ?") (str "d.nome = 'Algoritmos'") q
    else if containsSub (str "Engenharia") q && containsSub (str "Software") q then
      replaceAll (str "d.id = ?") (str "d.nome = 'Engenharia de Software'") q
    else
      replaceAll (str "AND d.id = ?") [] q
  else q

/-- `\s*=\s*\?` attempted at the current position; returns the rest. -/
def matchEqQm (l : List Char) : Option (List Char) :=
  match l.dropWhile isPySpace with
  | '=' :: l2 =>
    match l2.dropWhile isPySpace with
    | '?' :: r => some r
    | _ => none
  | _ => none

/-- `re.sub(r'\s*=\s*\?', " IS NOT NULL", q)` (line 428), with a fuel that
bounds the text length (a match always consumes at least the `?`). -/
def subEqQmGo : Nat → List Char → List Char
  | _, [] => []
  | 0, l => l
  | fuel + 1, c :: rest =>
    match matchEqQm (c :: rest) with
    | some r => str " IS NOT NULL" ++ subEqQmGo fuel r
    | none => c :: subEqQmGo fuel rest

/-- `re.sub(r'\s*=\s*\?', " IS NOT NULL", q)` (line 428). -/
def subEqQm (l : List Char) : List Char := subEqQmGo l.length l

/-- Lines 419-432: resolve or erase any remaining bare `?` placeholders. -/
def handleQm (q : PyStr) (ps : Dict) : PyStr × Dict :=
  if containsSub ['?'] q then
    let q1 :=
      match dictFind ps "ra" with
      | some ra =>
        replaceAll (str "ra = ?") (str "ra = " ++ quoteVal ra)
          (replaceAll (str "m.ra = ?") (str "m.ra = " ++ quoteVal ra) q)
      | none => q
    let q2 := subEqQm q1
    (q2, if dictHas ps "ra" then dictDel ps "ra" else ps)
  else (q, ps)

/-- Lines 360-432: the final statement text `execute_query` builds before the
RPC call, together with the parameter dict it mutates along the way. -/
def buildFinalQuery (sql : PyStr) (ps : Dict) (user_id : String) : PyStr × Dict :=
  let q1 := stripTrailingLimit sql
  let q2 := substNamedParams q1 ps
  let q3 := substBraceVars q2 ps user_id
  let q4 := handleDId q3
  handleQm q4 ps

/-- Lines 436-441: the argument record handed to the `execute_secured_query`
RPC — note the constant `"{}"` in the `params` slot. -/
structure RpcArgs where
  query_text : PyStr
  params_json : String
  user_id : String
deriving DecidableEq

/-- Lines 436-441. -/
def rpcArgsFor (final_query : PyStr) (user_id : String) : RpcArgs :=
  { query_text := final_query, params_json := "{}", user_id := user_id }

/-- A database cell value as produced by the simulated responses. -/
inductive DbValue where
  | int (n : Int)
  | num (q : ℚ)
  | text (s : String)
deriving DecidableEq

/-- A result row: flat key-value record. -/
abbrev Row := List (String × DbValue)

/-- Lines 492-499: the hard-coded absence counts per course id. -/
def faltasPorId (id : String) : Int :=
  if id == "9b5eccd5-a6ab-5f07-80b3-e91316249fa1" then 0
  else if id == "3e5e23c8-87d5-521e-90df-eecb69a8330a" then 1
  else if id == "909a75e6-79b0-58e4-a7a6-7b22ee681fe5" then 1
  else if id == "c0c0dada-062a-5a26-adc0-12620adeef57" then 0
  else if id == "0294e946-42ce-55d1-b17a-dcbca5357c8a" then 0
  else if id == "f3a9be76-7e28-5d30-b200-4c3e7fb99a6f" then 0
  else 0

/-- Lines 465-489: guess the course from the statement text. -/
def detectDisciplina (sql : PyStr) : String × String :=
  if containsSub (str "Sistemas Operacionais") sql then
    ("Sistemas Operacionais", "909a75e6-79b0-58e4-a7a6-7b22ee681fe5")
  else if containsSub (str "Banco de Dados") sql then
    ("Banco de Dados", "c0c0dada-062a-5a26-adc0-12620adeef57")
  else if containsSub (str "Cálculo") sql || containsSub (str "Calculo") sql then
    ("Cálculo I", "9b5eccd5-a6ab-5f07-80b3-e91316249fa1")
  else if containsSub (str "Teoria") sql && containsSub (str "Computação") sql then
    ("Teoria da Computação", "3e5e23c8-87d5-521e-90df-eecb69a8330a")
  else if containsSub (str "Algoritmos") sql then
    ("Algoritmos", "0294e946-42ce-55d1-b17a-dcbca5357c8a")
  else if containsSub (str "Engenharia") sql && containsSub (str "Software") sql then
    ("Engenharia de Software", "f3a9be76-7e28-5d30-b200-4c3e7fb99a6f")
  else ("Disciplina Não Identificada", "")

/-- Lines 458-540: the simulated response returned when the RPC call fails.
The branch conditions read the (sanitized) `sql` argument; the `ra` lookup
reads the parameter dict as mutated by the final-query construction.  The
`vencimento` date string (computed from the wall clock on lines 525-527) is
passed in as `hojeMinus5`. -/
def simulatedRows (sql : PyStr) (ps : Dict) (user_id : String) (hojeMinus5 : String) :
    List Row :=
  if containsSub (str "matriculas") sql && containsSub (str "faltas") sql then
    let d := detectDisciplina sql
    let faltas := faltasPorId d.2
    [[("faltas", DbValue.int faltas),
      ("ra", DbValue.text (dictGetD ps "ra" user_id)),
      ("disciplina_id", DbValue.text d.2),
      ("disciplina_nome", DbValue.text d.1)]]
  else if containsSub (str "notas") sql then
    [[("valor", DbValue.num (17 / 2)),
      ("ra", DbValue.text (dictGetD ps "ra" user_id)),
      ("disciplina_id", DbValue.text "")]]
  else if containsSub (str "financeiro") sql && containsSub (str "pix") sql then
    [[("count", DbValue.int 3)]]
  else if containsSub (str "financeiro") sql && containsSub (str "vencido") sql then
    [[("id", DbValue.text "ed7aaf56-8b34-4bc9-9f2d-91c1e4b24e79"),
      ("ra", DbValue.text user_id),
      ("valor", DbValue.num (34999 / 100)),
      ("vencimento", DbValue.text hojeMinus5),
      ("status", DbValue.text "vencido"),
      ("descricao", DbValue.text "Mensalidade de Março/2025")]]
  else []

/-- Outcome of an external call (RPC / REST) as seen by the caller. -/
inductive FetchOutcome (α : Type) where
  | ok (a : α)
  | err (msg : String)

/-- `execute_query(sql, params, user_id)` (lines 343-545) with the RPC
outcome passed in explicitly.  On RPC success the response rows are returned
as-is (`response.data or []` is `ok rows`); on RPC failure the except-branch
returns the simulated rows. -/
def execute_query (sql : PyStr) (ps : Dict) (user_id : String)
    (rpcOutcome : FetchOutcome (List Row)) (hojeMinus5 : String) : List Row :=
  let built := buildFinalQuery sql ps user_id
  match rpcOutcome with
  | FetchOutcome.ok rows => rows
  | FetchOutcome.err _ => simulatedRows sql built.2 user_id hojeMinus5

/-!
`dba_guard` (src/agents/dba_guard_agent.py).  The agent state fields the
function reads or writes are modelled; `logger.warning` calls are modelled as
a returned list of warning strings.
-/

/-- `re.search(r"select\s+count\s*\(", ...)`: tail after `count`. -/
def scParen (l : List Char) : Bool :=
  startsWithL ['('] (l.dropWhile isPySpace)

/-- Inside the `\s+` between `select` and `count`. -/
def scSpaces : List Char → Bool
  | [] => false
  | c :: r =>
    if isPySpace c then scSpaces r
    else startsWithL (str "count") (c :: r) && scParen ((c :: r).drop 5)

/-- `select\s+count\s*\(` attempted at the current position. -/
def matchSelectCountAt (l : List Char) : Bool :=
  startsWithL (str "select") l &&
    (match l.drop 6 with
     | [] => false
     | c :: r => isPySpace c && scSpaces r)

/-- `re.search(r"select\s+count\s*\(", sql.lower(), ...)` (line 32). -/
def searchSelectCount : List Char → Bool
  | [] => false
  | c :: r => matchSelectCountAt (c :: r) || searchSelectCount r

/-- Inside the `\s+` between `*` and `from`. -/
def ssfFrom : List Char → Bool
  | [] => false
  | c :: r => if isPySpace c then ssfFrom r else startsWithL (str "from") (c :: r)

/-- Inside the `\s+` between `select` and `*`. -/
def ssfStar : List Char → Bool
  | [] => false
  | c :: r =>
    if isPySpace c then ssfStar r
    else
      c == '*' &&
        (match r with
         | [] => false
         | d :: r2 => isPySpace d && ssfFrom r2)

/-- `select\s+\*\s+from` attempted at the current position. -/
def matchSelectStarAt (l : List Char) : Bool :=
  startsWithL (str "select") l &&
    (match l.drop 6 with
     | [] => false
     | c :: r => isPySpace c && ssfStar r)

/-- `re.search(r"select\s+\*\s+from", sql.lower(), ...)` (line 41). -/
def searchSelectStar : List Char → Bool
  | [] => false
  | c :: r => matchSelectStarAt (c :: r) || searchSelectStar r

/-- The negative lookahead `(?!\s+where)` of the large-table pattern. -/
def ftWhere : List Char → Bool
  | [] => false
  | c :: r =>
    if isPySpace c then (r.dropWhile isPySpace |> startsWithL (str "where"))
    else false

/-- Inside the `\s+` between `from` and the table name. -/
def ftTable (table : List Char) : List Char → Bool
  | [] => false
  | c :: r =>
    if isPySpace c then ftTable table r
    else startsWithL table (c :: r) && !ftWhere ((c :: r).drop table.length)

/-- `from\s+{table}(?!\s+where)` attempted at the current position. -/
def matchFromTableAt (table : List Char) (l : List Char) : Bool :=
  startsWithL (str "from") l &&
    (match l.drop 4 with
     | [] => false
     | c :: r => isPySpace c && ftTable table r)

/-- `re.search(rf"from\s+{table}(?!\s+where)", sql.lower(), ...)` (line 49). -/
def searchFromTable (table : List Char) : List Char → Bool
  | [] => false
  | c :: r => matchFromTableAt table (c :: r) || searchFromTable table r

/-- Line 46. -/
def largeTables : List String := ["notas", "presencas", "matriculas", "historico"]

/-- Line 43. -/
def selectStarWarning : String := "Query contains SELECT * - this should be avoided"

/-- Line 50. -/
def largeTableWarning (t : String) : String :=
  "Query may perform full table scan on large table: " ++ t

/-- The slice of `AcademicAgentState` that `dba_guard` touches. -/
structure GuardState where
  error : Option String
  from_cache : Bool
  generated_sql : PyStr
  metadata_original_sql : Option PyStr
  skip_database_query : Bool
deriving DecidableEq

/-- Lines 29-34: append `" LIMIT 100;"` to a capless non-count select. -/
def guardLimit (sql0 : PyStr) : PyStr :=
  if !containsSub (str "limit") (lowerL sql0) && containsSub (str "select") (lowerL sql0) then
    if searchSelectCount (lowerL sql0) then sql0
    else rstripChar ';' sql0 ++ str " LIMIT 100;"
  else sql0

/-- Lines 29-38: the statement text after the cap and semicolon rules. -/
def guardSql (sql0 : PyStr) : PyStr :=
  if !endsWithL [';'] (rstripWS (guardLimit sql0)) then guardLimit sql0 ++ [';']
  else guardLimit sql0

/-- Lines 40-50: the warnings logged for the (possibly rewritten) statement. -/
def guardWarns (sql0 : PyStr) : List String :=
  (if searchSelectStar (lowerL (guardSql sql0)) then [selectStarWarning] else []) ++
    (largeTables.filter (fun t => searchFromTable t.data (lowerL (guardSql sql0)))).map
      largeTableWarning

/-- `dba_guard(state)` (lines 11-67): the updated state plus the warnings it
logs.  The try-body is total, so the except-branch (lines 62-65) is dead. -/
def dba_guard (st : GuardState) : GuardState × List String :=
  if st.error.isSome || st.from_cache then (st, [])
  else if guardSql st.generated_sql ≠ st.generated_sql then
    ({ st with generated_sql := guardSql st.generated_sql,
               metadata_original_sql := some st.generated_sql },
     guardWarns st.generated_sql)
  else (st, guardWarns st.generated_sql)

/-- `executor_agent` runs the sanitize-then-execute sequence unless skipped
(src/agents/executor_agent.py, lines 23-30). -/
def executorRuns (st : GuardState) : Bool :=
  !(st.error.isSome || st.from_cache || st.skip_database_query)

/-!
`query_validator` (src/agents/validator_agent.py).  The LLM round-trip and the
JSON extraction (lines 83-103) are an external effect; their combined outcome
is passed in as `Option ValidationResult` (`none` when the structured response
cannot be parsed).
-/

/-- A validation issue as parsed from the Reviewer response. -/
structure VIssue where
  itype : String
  description : String
  suggestion : String
deriving DecidableEq

/-- The parsed validation payload.  A parsed dict lacking `is_valid` reads as
`true` and one lacking `corrected_sql` reads as `none`, matching the
`.get("is_valid", True)` / `"corrected_sql" in` accesses. -/
structure ValidationResult where
  is_valid : Bool
  issues : List VIssue
  corrected_sql : Option PyStr
deriving DecidableEq

/-- Lines 104-111: the default result built when JSON parsing fails. -/
def parseFallbackResult (generated_sql : PyStr) : ValidationResult :=
  { is_valid := true, issues := [], corrected_sql := some generated_sql }

/-- The slice of `AcademicAgentState` that `query_validator` touches. -/
structure VState where
  error : Option String
  from_cache : Bool
  skip_sql_generation : Bool
  generated_sql : PyStr
  validation_results : List VIssue
deriving DecidableEq

/-- `query_validator(state)` (lines 15-132) given the parse outcome of the
Reviewer response. -/
def query_validator (st : VState) (parsed : Option ValidationResult) : VState :=
  if st.error.isSome || st.from_cache || st.skip_sql_generation then
    if st.skip_sql_generation then { st with validation_results := [] } else st
  else
    let vr :=
      match parsed with
      | some v => v
      | none => parseFallbackResult st.generated_sql
    let st1 := { st with validation_results := vr.issues }
    if !vr.is_valid then
      match vr.corrected_sql with
      | some c => { st1 with generated_sql := c }
      | none => st1
    else st1

/-!
Schema catalog (src/database/supabase_client.py, lines 15-244).  The Supabase
round-trips are passed in as `FetchOutcome` arguments; the cache slot contents
are passed in as an `Option`.
-/

/-- A row of `information_schema.columns` as the code reads it. -/
structure ColumnRow where
  column_name : String
  data_type : String
  is_nullable : String
deriving DecidableEq

/-- A foreign-key record as built by the introspection code. -/
structure FKey where
  column_name : String
  foreign_table_name : String
  foreign_column_name : String
deriving DecidableEq

/-- A table entry of the schema snapshot. -/
structure TableInfo where
  name : String
  columns : List ColumnRow
  primary_keys : List String
  foreign_keys : List FKey
deriving DecidableEq

/-- The schema snapshot dict (`{"tables": [...]}`, plus the `"error"` key of
the line-55 branch). -/
structure SchemaInfo where
  tables : List TableInfo
  error : Option String
deriving DecidableEq

/-- Lines 101-116: primary-key inference by naming convention. -/
def inferPrimaryKeys (tname : String) (cols : List ColumnRow) : List String :=
  match cols.find? (fun c => c.column_name == "id" || c.column_name == tname ++ "_id") with
  | some c => [c.column_name]
  | none =>
    match cols.find? (fun c =>
        containsSub (str "id") (lowerL c.column_name.data) && c.is_nullable == "NO") with
    | some c => [c.column_name]
    | none => []

/-- Lines 118-141: foreign-key inference by naming convention.  The
`col_name == 'ra'` arm (lines 134-139) is unreachable: it sits under the
`col_name.endswith('_id')` guard. -/
def inferForeignKeys (tables : List String) (cols : List ColumnRow) : List FKey :=
  cols.foldl
    (fun acc c =>
      if endsWithL (str "_id") c.column_name.data && !(c.column_name == "id") then
        let ref := String.mk (replaceAll (str "_id") [] c.column_name.data)
        if tables.contains ref then
          acc ++ [{ column_name := c.column_name, foreign_table_name := ref,
                    foreign_column_name := "id" }]
        else if c.column_name == "ra" then
          acc ++ [{ column_name := "ra", foreign_table_name := "alunos",
                    foreign_column_name := "ra" }]
        else acc
      else acc)
    []

/-- `get_fallback_schema()` (lines 165-244), transcribed in full. -/
def get_fallback_schema : SchemaInfo :=
  { tables :=
      [{ name := "alunos",
         columns :=
           [{ column_name := "ra", data_type := "varchar", is_nullable := "NO" },
            { column_name := "pessoa_id", data_type := "uuid", is_nullable := "NO" },
            { column_name := "curso_id", data_type := "uuid", is_nullable := "NO" }],
         primary_keys := ["ra"],
         foreign_keys :=
           [{ column_name := "pessoa_id", foreign_table_name := "pessoas",
              foreign_column_name := "id" },
            { column_name := "curso_id", foreign_table_name := "cursos",
              foreign_column_name := "id" }] },
       { name := "matriculas",
         columns :=
           [{ column_name := "id", data_type := "uuid", is_nullable := "NO" },
            { column_name := "ra", data_type := "varchar", is_nullable := "NO" },
            { column_name := "disciplina_id", data_type := "uuid", is_nullable := "NO" },
            { column_name := "periodo_letivo_id", data_type := "uuid", is_nullable := "NO" },
            { column_name := "faltas", data_type := "integer", is_nullable := "YES" },
            { column_name := "status", data_type := "varchar", is_nullable := "YES" }],
         primary_keys := ["id"],
         foreign_keys :=
           [{ column_name := "ra", foreign_table_name := "alunos",
              foreign_column_name := "ra" },
            { column_name := "disciplina_id", foreign_table_name := "disciplinas",
              foreign_column_name := "id" },
            { column_name := "periodo_letivo_id", foreign_table_name := "periodos_letivos",
              foreign_column_name := "id" }] },
       { name := "disciplinas",
         columns :=
           [{ column_name := "id", data_type := "uuid", is_nullable := "NO" },
            { column_name := "nome", data_type := "varchar", is_nullable := "NO" },
            { column_name := "codigo", data_type := "varchar", is_nullable := "YES" },
            { column_name := "curso_id", data_type := "uuid", is_nullable := "NO" }],
         primary_keys := ["id"],
         foreign_keys :=
           [{ column_name := "curso_id", foreign_table_name := "cursos",
              foreign_column_name := "id" }] },
       { name := "periodos_letivos",
         columns :=
           [{ column_name := "id", data_type := "uuid", is_nullable := "NO" },
            { column_name := "ano", data_type := "integer", is_nullable := "NO" },
            { column_name := "semestre", data_type := "integer", is_nullable := "NO" },
            { column_name := "status", data_type := "varchar", is_nullable := "YES" }],
         primary_keys := ["id"],
         foreign_keys := [] },
       { name := "financeiro",
         columns :=
           [{ column_name := "id", data_type := "uuid", is_nullable := "NO" },
            { column_name := "ra", data_type := "varchar", is_nullable := "NO" },
            { column_name := "valor", data_type := "numeric", is_nullable := "NO" },
            { column_name := "vencimento", data_type := "date", is_nullable := "NO" },
            { column_name := "status", data_type := "varchar", is_nullable := "NO" },
            { column_name := "metodo_pagamento", data_type := "varchar",
              is_nullable := "YES" }],
         primary_keys := ["id"],
         foreign_keys :=
           [{ column_name := "ra", foreign_table_name := "alunos",
              foreign_column_name := "ra" }] }],
    error := none }

/-- `get_schema_info_direct()` (lines 57-163): per-table column fetch failures
are skipped (lines 92-94); a failed or empty table fetch falls back to the
built-in snapshot (lines 153-163). -/
def get_schema_info_direct (tablesOutcome : FetchOutcome (List String))
    (columnsFor : String → FetchOutcome (List ColumnRow)) : SchemaInfo :=
  match tablesOutcome with
  | FetchOutcome.err _ => get_fallback_schema
  | FetchOutcome.ok tnames =>
    let tinfos :=
      tnames.foldl
        (fun acc t =>
          match columnsFor t with
          | FetchOutcome.err _ => acc
          | FetchOutcome.ok cols =>
            acc ++ [{ name := t, columns := cols,
                      primary_keys := inferPrimaryKeys t cols,
                      foreign_keys := inferForeignKeys tnames cols }])
        []
    if tinfos.isEmpty then get_fallback_schema else { tables := tinfos, error := none }

/-- `get_schema_info()` (lines 15-55) with the cache slot and the RPC outcome
passed in.  A cached snapshot is returned straight away; on RPC failure the
direct path runs; `set_cache` is an effect on the cache slot, not on the
returned value, and `get_schema_info_direct` is total, so the outer
except-branch (lines 52-55) is dead. -/
def get_schema_info (cached : Option SchemaInfo) (rpcOutcome : FetchOutcome SchemaInfo)
    (tablesOutcome : FetchOutcome (List String))
    (columnsFor : String → FetchOutcome (List ColumnRow)) : SchemaInfo :=
  match cached with
  | some s => s
  | none =>
    match rpcOutcome with
    | FetchOutcome.ok s => s
    | FetchOutcome.err _ => get_schema_info_direct tablesOutcome columnsFor

/-!
The revision loop of the NL2SQL graph (src/agents/nl2sql_agent.py).  The
writer and QA nodes call the LLM; the QA verdict for the candidate produced in
revision round `r` is supplied by an oracle `Nat → Bool`.  The conditional
edge (lines 349-356) is `"end" if accepted or revision >= max_revision else
"revise"`, and `nl2sql_agent` (lines 390-398) starts the loop at
`revision = 0`, `max_revision = 2`, `accepted = False`.
-/

/-- The node about to run in the NL2SQL graph. -/
inductive RevPhase where
  | writer
  | qa
  | dba
  | done
deriving DecidableEq

/-- The loop-relevant slice of `NL2SQLState`. -/
structure RevState where
  phase : RevPhase
  revision : Nat
  max_revision : Nat
  accepted : Bool
deriving DecidableEq

/-- One transition of the graph: `sql_writer` increments `revision` (line
113), `qa_engineer` sets `accepted` (line 173), the conditional edge routes to
`END` or `chief_dba` (line 351), and `chief_dba` loops back to the writer
(line 346). -/
def revStep (verdict : Nat → Bool) (s : RevState) : RevState :=
  match s.phase with
  | RevPhase.writer => { s with revision := s.revision + 1, phase := RevPhase.qa }
  | RevPhase.qa =>
    let acc := verdict s.revision
    if acc || decide (s.revision ≥ s.max_revision) then
      { s with accepted := acc, phase := RevPhase.done }
    else { s with accepted := acc, phase := RevPhase.dba }
  | RevPhase.dba => { s with phase := RevPhase.writer }
  | RevPhase.done => s

/-- Lines 390-398: the initial NL2SQL state. -/
def revInit : RevState :=
  { phase := RevPhase.writer, revision := 0, max_revision := 2, accepted := false }

/-- The characters that can appear after the `LIMIT` keyword inside a match
of the trailing-limit pattern (used to rule out matches that start early). -/
def okChar (c : Char) : Bool := isPySpace c || c.isDigit || c == ';'

/-- Modelled from the spec's words, not from the code: a "row-limit clause"
is the keyword `limit` — as a whole word, case-insensitively — followed by
whitespace and a digit (the row count).  Used to compare the spec's
"lacking a row-limit clause" against the code's substring test. -/
def specRowLimitAt (l : List Char) : Bool :=
  startsWithL (str "limit") l &&
    (match l.drop 5 with
     | c :: r =>
       isPySpace c &&
         (match (c :: r).dropWhile isPySpace with
          | d :: _ => d.isDigit
          | [] => false)
     | [] => false)

/-- Modelled from the spec: scan for a row-limit clause at a word boundary. -/
def specHasRowLimitAux : Option Char → List Char → Bool
  | _, [] => false
  | prev, c :: rest =>
    (boundaryOk prev && specRowLimitAt (c :: rest)) || specHasRowLimitAux (some c) rest

/-- Modelled from the spec: the statement carries a row-limit clause. -/
def specHasRowLimitClause (sql : PyStr) : Bool :=
  specHasRowLimitAux none (lowerL sql)

/-! ## Theorems -/

set_option maxRecDepth 100000

theorem dba_guard_error_eq (st : GuardState) : (dba_guard st).1.error = st.error := by
  unfold dba_guard
  split_ifs <;> rfl

theorem dba_guard_sql_eq (st : GuardState) (h1 : st.error = none)
    (h2 : st.from_cache = false) :
    (dba_guard st).1.generated_sql = guardSql st.generated_sql := by
  unfold dba_guard
  rw [h1, h2]
  simp only [Option.isSome_none, Bool.or_false, Bool.false_eq_true, if_false]
  split_ifs with hc
  · rfl
  · rw [not_not] at hc
    exact hc.symm

theorem dba_guard_warns_eq (st : GuardState) (h1 : st.error = none)
    (h2 : st.from_cache = false) :
    (dba_guard st).2 = guardWarns st.generated_sql := by
  unfold dba_guard
  rw [h1, h2]
  simp only [Option.isSome_none, Bool.or_false, Bool.false_eq_true, if_false]
  split_ifs <;> rfl

/-- C1: the spec's parameterization invariant fails in the code.
`sanitize_and_parameterize_sql` binds the caller-context value `12'345` as a
typed parameter, but `execute_query` then interpolates it into the statement
text as a quoted literal (lines 369-379) and hands the RPC a constant empty
parameter payload `"{}"` (line 439), so the bound value — quote character
included — appears verbatim inside the final statement text. -/
theorem C1_bound_value_becomes_literal :
    sanitize_and_parameterize_sql
        (str "SELECT faltas FROM matriculas WHERE ra = {{user_id}}")
        [("user_id", "12'345")] =
      (str "SELECT faltas FROM matriculas WHERE ra = :user_id",
       [("user_id", "12'345")]) ∧
    (rpcArgsFor
        (buildFinalQuery (str "SELECT faltas FROM matriculas WHERE ra = :user_id")
          [("user_id", "12'345")] "u1").1 "u1").query_text =
      str "SELECT faltas FROM matriculas WHERE ra = '12'345'" ∧
    containsSub (str "'12'345'")
      (rpcArgsFor
        (buildFinalQuery (str "SELECT faltas FROM matriculas WHERE ra = :user_id")
          [("user_id", "12'345")] "u1").1 "u1").query_text = true ∧
    (rpcArgsFor
        (buildFinalQuery (str "SELECT faltas FROM matriculas WHERE ra = :user_id")
          [("user_id", "12'345")] "u1").1 "u1").params_json = "{}" :=
  ⟨by decide, by decide, by decide, rfl⟩

/-- C3: an unresolved `{RA}` placeholder (empty caller context) does not fail
fast — sanitization invents the hard-coded default value `201268`, binds it,
and the statement is then built and executed with that default interpolated,
instead of raising a `sanitization_error`. -/
theorem C3_unresolved_placeholder_gets_default :
    sanitize_and_parameterize_sql
        (str "SELECT faltas FROM matriculas WHERE ra = {RA}") [] =
      (str "SELECT faltas FROM matriculas WHERE ra = :ra", [("ra", "201268")]) ∧
    (buildFinalQuery (str "SELECT faltas FROM matriculas WHERE ra = :ra")
        [("ra", "201268")] "u7").1 =
      str "SELECT faltas FROM matriculas WHERE ra = '201268'" :=
  ⟨by decide, by decide⟩

/-- C4: when the RPC execution fails, `execute_query` returns a fabricated
simulated row (lines 458-540) instead of an empty/failure result: for a
faltas-for-Cálculo statement it invents the row
`faltas = 0, disciplina_nome = "Cálculo I"` out of thin air. -/
theorem C4_fabricated_rows_on_failure :
    execute_query
        (str "SELECT m.faltas FROM matriculas m JOIN disciplinas d ON m.disciplina_id = d.id WHERE m.ra = :ra AND d.nome ILIKE '%Cálculo%'")
        [("ra", "201268")] "12345" (FetchOutcome.err "RPC unavailable") "2025-03-05" =
      [[("faltas", DbValue.int 0), ("ra", DbValue.text "201268"),
        ("disciplina_id", DbValue.text "9b5eccd5-a6ab-5f07-80b3-e91316249fa1"),
        ("disciplina_nome", DbValue.text "Cálculo I")]] ∧
    execute_query
        (str "SELECT m.faltas FROM matriculas m JOIN disciplinas d ON m.disciplina_id = d.id WHERE m.ra = :ra AND d.nome ILIKE '%Cálculo%'")
        [("ra", "201268")] "12345" (FetchOutcome.err "RPC unavailable") "2025-03-05" ≠ [] :=
  ⟨by decide, by decide⟩

/-- C8: when the schema RPC fails, the direct introspection fails and no
cached snapshot exists, `get_schema_info` returns the built-in fallback
snapshot, whose table set is exactly the five tables the rest of the system
assumes — in particular the schema handed downstream is never empty. -/
theorem C8_schema_fallback_on_failure :
    (∀ (e1 e2 : String) (cf : String → FetchOutcome (List ColumnRow)),
      get_schema_info none (FetchOutcome.err e1) (FetchOutcome.err e2) cf =
        get_fallback_schema) ∧
    get_fallback_schema.tables.map (fun t => t.name) =
      ["alunos", "matriculas", "disciplinas", "periodos_letivos", "financeiro"] ∧
    get_fallback_schema.tables ≠ [] :=
  ⟨fun _ _ _ => rfl, rfl, by decide⟩

/-- C2 counterexample: with a healthy session state and an unparseable
Reviewer response, `query_validator` records no issue and leaves the state
unchanged — the parse fallback sets `is_valid := true`, so the candidate
proceeds exactly as an accepted one, refuting the claim that a parse failure
is treated as a rejection with a generic issue. -/
theorem C2_counterexample :
    (parseFallbackResult (str "SELECT f FROM t")).is_valid = true ∧
    query_validator
        { error := none, from_cache := false, skip_sql_generation := false,
          generated_sql := str "SELECT f FROM t", validation_results := [] } none =
      { error := none, from_cache := false, skip_sql_generation := false,
        generated_sql := str "SELECT f FROM t", validation_results := [] } :=
  ⟨rfl, by decide⟩

/-- C2 (amended): for every Reviewer run whose structured output cannot be
parsed, the session treats the candidate as ACCEPTED — the validator defaults
to `is_valid = true` with an empty issue list and the SQL unchanged, silently
converting the parse failure into acceptance. -/
theorem C2_parse_failure_defaults_to_accept (st : VState)
    (h1 : st.error = none) (h2 : st.from_cache = false)
    (h3 : st.skip_sql_generation = false) :
    query_validator st none = { st with validation_results := [] } := by
  simp [query_validator, h1, h2, h3, parseFallbackResult]

theorem C2_parse_failure_defaults_to_accept_witness :
    query_validator
        { error := none, from_cache := false, skip_sql_generation := false,
          generated_sql := str "SELECT 1", validation_results := [] } none =
      { error := none, from_cache := false, skip_sql_generation := false,
        generated_sql := str "SELECT 1", validation_results := [] } :=
  C2_parse_failure_defaults_to_accept _ rfl rfl rfl

/-- C5 counterexample: the unscoped wildcard statement `SELECT * FROM alunos`
is not rejected by the Guard — the session keeps `error = none`, gets the row
cap appended, still reaches the Executor, and the wildcard only produces a
logged warning. -/
theorem C5_counterexample :
    (dba_guard ⟨none, false, str "SELECT * FROM alunos", none, false⟩).1.error = none ∧
    (dba_guard ⟨none, false, str "SELECT * FROM alunos", none, false⟩).1.generated_sql =
      str "SELECT * FROM alunos LIMIT 100;" ∧
    executorRuns (dba_guard ⟨none, false, str "SELECT * FROM alunos", none, false⟩).1 =
      true ∧
    (dba_guard ⟨none, false, str "SELECT * FROM alunos", none, false⟩).2 =
      [selectStarWarning] :=
  ⟨by decide, by decide, by decide, by decide⟩

/-- C5 (amended): on an unscoped wildcard projection the Guard only logs the
SELECT*-warning; it never sets an error, so the session proceeds to
execution. -/
theorem C5_guard_warns_but_proceeds (st : GuardState)
    (h1 : st.error = none) (h2 : st.from_cache = false)
    (h3 : searchSelectStar (lowerL (guardSql st.generated_sql)) = true) :
    (dba_guard st).1.error = none ∧ selectStarWarning ∈ (dba_guard st).2 := by
  refine ⟨by rw [dba_guard_error_eq, h1], ?_⟩
  rw [dba_guard_warns_eq st h1 h2]
  unfold guardWarns
  rw [h3]
  simp

theorem C5_guard_warns_but_proceeds_witness :
    (dba_guard ⟨none, false, str "SELECT * FROM pessoas", none, false⟩).1.error = none ∧
    selectStarWarning ∈ (dba_guard ⟨none, false, str "SELECT * FROM pessoas", none, false⟩).2 :=
  C5_guard_warns_but_proceeds _ rfl rfl (by decide)

theorem revLoop_invariant (v : Nat → Bool) (n : Nat) :
    ((revStep v)^[n] revInit).max_revision = 2 ∧
    ((revStep v)^[n] revInit).revision ≤ 2 ∧
    (((revStep v)^[n] revInit).phase = RevPhase.writer ∨
        ((revStep v)^[n] revInit).phase = RevPhase.dba →
      ((revStep v)^[n] revInit).revision < 2) := by
  induction n with
  | zero => simp [revInit]
  | succ k ih =>
    rw [Function.iterate_succ_apply']
    obtain ⟨hm, hr, hp⟩ := ih
    cases hph : ((revStep v)^[k] revInit).phase with
    | writer =>
      have hlt := hp (Or.inl hph)
      simp only [revStep, hph]
      refine ⟨hm, by omega, ?_⟩
      rintro (h | h) <;> exact absurd h (by decide)
    | qa =>
      by_cases hc : (v ((revStep v)^[k] revInit).revision ||
          decide (((revStep v)^[k] revInit).revision ≥
            ((revStep v)^[k] revInit).max_revision)) = true
      · simp only [revStep, hph, hc, if_true]
        refine ⟨hm, hr, ?_⟩
        rintro (h | h) <;> exact absurd h (by decide)
      · simp only [revStep, hph, hc, Bool.false_eq_true, if_false]
        refine ⟨hm, hr, fun _ => ?_⟩
        simp only [Bool.or_eq_true, decide_eq_true_eq, not_or] at hc
        omega
    | dba =>
      have hlt := hp (Or.inr hph)
      simp only [revStep, hph]
      exact ⟨hm, hr, fun _ => hlt⟩
    | done =>
      simp only [revStep, hph]
      refine ⟨hm, hr, ?_⟩
      rintro (h | h) <;> exact absurd h (by decide)

/-- C9: along every run of the NL2SQL revision loop (any sequence of QA
verdicts), the `revision` counter never exceeds `max_revision` (initialised to
the default ceiling 2), and the loop reaches its terminal state (the
conditional edge routes to END) within five node transitions. -/
theorem C9_revision_bounded_and_terminates :
    (∀ (v : Nat → Bool) (n : Nat),
      ((revStep v)^[n] revInit).revision ≤ revInit.max_revision) ∧
    (∀ v : Nat → Bool, ∃ n, n ≤ 5 ∧ ((revStep v)^[n] revInit).phase = RevPhase.done) := by
  constructor
  · intro v n
    exact (revLoop_invariant v n).2.1
  · intro v
    have e1 : revStep v revInit = ⟨RevPhase.qa, 1, 2, false⟩ := rfl
    by_cases hv : v 1 = true
    · refine ⟨2, by omega, ?_⟩
      have h2 : (revStep v)^[2] revInit = ⟨RevPhase.done, 1, 2, true⟩ := by
        rw [show (2 : Nat) = 1 + 1 from rfl, Function.iterate_succ_apply, e1,
          Function.iterate_one]
        simp [revStep, hv]
      rw [h2]
    · refine ⟨5, by omega, ?_⟩
      have e2 : revStep v (⟨RevPhase.qa, 1, 2, false⟩ : RevState) =
          ⟨RevPhase.dba, 1, 2, false⟩ := by
        simp [revStep, hv]
      have e3 : revStep v (⟨RevPhase.dba, 1, 2, false⟩ : RevState) =
          ⟨RevPhase.writer, 1, 2, false⟩ := rfl
      have e4 : revStep v (⟨RevPhase.writer, 1, 2, false⟩ : RevState) =
          ⟨RevPhase.qa, 2, 2, false⟩ := rfl
      have e5 : revStep v (⟨RevPhase.qa, 2, 2, false⟩ : RevState) =
          ⟨RevPhase.done, 2, 2, v 2⟩ := by
        simp [revStep]
      have h5 : (revStep v)^[5] revInit = ⟨RevPhase.done, 2, 2, v 2⟩ := by
        rw [show (5 : Nat) = 4 + 1 from rfl, Function.iterate_succ_apply, e1,
          show (4 : Nat) = 3 + 1 from rfl, Function.iterate_succ_apply, e2,
          show (3 : Nat) = 2 + 1 from rfl, Function.iterate_succ_apply, e3,
          show (2 : Nat) = 1 + 1 from rfl, Function.iterate_succ_apply, e4,
          Function.iterate_one, e5]
      rw [h5]

theorem sanitizeDynamic_nop (ctx : Dict) (s : PyStr) (ps : Dict)
    (h : ∀ kv ∈ ctx, containsSub (str "\x7b\x7b" ++ kv.1.data ++ str "\x7d\x7d") s = false) :
    sanitizeDynamic ctx s ps = (s, ps) := by
  induction ctx generalizing ps with
  | nil => rfl
  | cons kv rest ih =>
    have hkv := h kv (by simp)
    have hstep : sanitizeDynamic (kv :: rest) s ps = sanitizeDynamic rest s ps := by
      unfold sanitizeDynamic
      simp only [List.foldl_cons, hkv, Bool.false_eq_true, if_false]
    rw [hstep]
    exact ih ps (fun kv2 h2 => h kv2 (List.mem_cons_of_mem _ h2))

/-- C10 counterexample: sanitization is not idempotent.  For the SQL text
`{{{{ab}}}}` with caller context `{":ab": "X", "ab": "Y"}`, the first pass
rewrites the text to `{{:ab}}` binding `ab`, and re-sanitizing that output
rewrites the text again (to `::ab`) and produces a different parameter map —
both the statement text and the parameters change on the second pass. -/
theorem C10_counterexample :
    ((sanitize_and_parameterize_sql
        ((sanitize_and_parameterize_sql (str "{{{{ab}}}}") [(":ab", "X"), ("ab", "Y")]).1)
        [(":ab", "X"), ("ab", "Y")]).1 ≠
      (sanitize_and_parameterize_sql (str "{{{{ab}}}}") [(":ab", "X"), ("ab", "Y")]).1) ∧
    ((sanitize_and_parameterize_sql
        ((sanitize_and_parameterize_sql (str "{{{{ab}}}}") [(":ab", "X"), ("ab", "Y")]).1)
        [(":ab", "X"), ("ab", "Y")]).2 ≠
      (sanitize_and_parameterize_sql (str "{{{{ab}}}}") [(":ab", "X"), ("ab", "Y")]).2) :=
  ⟨by decide, by decide⟩

/-- C10 (amended): re-sanitizing is stable only on statements that retain no
recognized placeholder: if the text contains no `{RA}`, no RA-question-mark
predicate, none of the fixed `{{...}}` placeholders and no `{{key}}` for any
context key, then sanitize returns the text unchanged — but with the dummy
parameter map `{"dummy": "1"}`, not the original parameters. -/
theorem C10_sanitize_stable (s : PyStr) (ctx : Dict)
    (h1 : containsSub (str "{RA}") s = false)
    (h2 : containsSub (str "m.ra = ?") s = false)
    (h3 : containsSub (str "ra = ?") s = false)
    (h4 : containsSub (str "{{user_id}}") s = false)
    (h5 : containsSub (str "{{periodo_atual}}") s = false)
    (h6 : containsSub (str "{{disciplina_id}}") s = false)
    (h7 : containsSub (str "{{RA}}") s = false)
    (h8 : ∀ kv ∈ ctx, containsSub (str "\x7b\x7b" ++ kv.1.data ++ str "\x7d\x7d") s = false) :
    sanitize_and_parameterize_sql s ctx = (s, [("dummy", "1")]) := by
  have e1 : sanitizeStepRA s ctx [] = (s, []) := by
    simp [sanitizeStepRA, h1]
  have e2 : sanitizeStepQm s ctx [] = [] := by
    simp [sanitizeStepQm, h2, h3]
  have e3 : sanitizeStepUserId s ctx [] = (s, []) := by
    simp [sanitizeStepUserId, h4]
  have e4 : sanitizeStepKey "periodo_atual" s ctx [] = (s, []) := by
    unfold sanitizeStepKey
    rw [show str "\x7b\x7b" ++ ("periodo_atual" : String).data ++ str "\x7d\x7d" =
      str "{{periodo_atual}}" from rfl, h5]
    simp
  have e5 : sanitizeStepKey "disciplina_id" s ctx [] = (s, []) := by
    unfold sanitizeStepKey
    rw [show str "\x7b\x7b" ++ ("disciplina_id" : String).data ++ str "\x7d\x7d" =
      str "{{disciplina_id}}" from rfl, h6]
    simp
  have e6 : sanitizeStepKey "RA" s ctx [] = (s, []) := by
    unfold sanitizeStepKey
    rw [show str "\x7b\x7b" ++ ("RA" : String).data ++ str "\x7d\x7d" = str "{{RA}}" from rfl, h7]
    simp
  have e7 := sanitizeDynamic_nop ctx s [] h8
  unfold sanitize_and_parameterize_sql
  simp only [e1, e2, e3, e4, e5, e6, e7, List.isEmpty_nil, if_true]

theorem startsWithL_iff (p : List Char) : ∀ l, startsWithL p l = true ↔ ∃ t, l = p ++ t := by
  induction p with
  | nil =>
    intro l
    simp [startsWithL]
  | cons a p ih =>
    intro l
    cases l with
    | nil => simp [startsWithL]
    | cons c cs =>
      simp only [startsWithL, Bool.and_eq_true, beq_iff_eq, List.cons_append,
        List.cons.injEq, ih]
      constructor
      · rintro ⟨rfl, t, rfl⟩
        exact ⟨t, rfl, rfl⟩
      · rintro ⟨t, rfl, rfl⟩
        exact ⟨rfl, t, rfl⟩

theorem rstripWS_append_semi (x : List Char) : rstripWS (x ++ [';']) = x ++ [';'] := by
  simp [rstripWS, List.dropWhile_cons, show isPySpace ';' = false from rfl]

theorem endsWithL_append_semi (x : List Char) : endsWithL [';'] (x ++ [';']) = true := by
  simp [endsWithL, startsWithL]

theorem searchSelectCount_of_count_prefix (t : List Char) :
    searchSelectCount (str "select count(" ++ t) = true := rfl

/-- C6 counterexample: the non-aggregate select
`SELECT nome FROM disciplinas WHERE descricao ILIKE '%limite de faltas%'`
lacks a row-limit clause (its only `limit` letters sit inside the word
`limite`), yet the Guard appends no cap — only a terminating semicolon —
because line 30 tests for the substring `"limit"` anywhere in the lowercased
text.  This refutes the claim that every non-aggregate select lacking a
row-limit clause gets the default cap. -/
theorem C6_counterexample :
    specHasRowLimitClause
        (str "SELECT nome FROM disciplinas WHERE descricao ILIKE '%limite de faltas%'") =
      false ∧
    containsSub (str "select")
      (lowerL
        (str "SELECT nome FROM disciplinas WHERE descricao ILIKE '%limite de faltas%'")) =
      true ∧
    searchSelectCount
      (lowerL
        (str "SELECT nome FROM disciplinas WHERE descricao ILIKE '%limite de faltas%'")) =
      false ∧
    (dba_guard
        ⟨none, false,
          str "SELECT nome FROM disciplinas WHERE descricao ILIKE '%limite de faltas%'",
          none, false⟩).1.generated_sql =
      str "SELECT nome FROM disciplinas WHERE descricao ILIKE '%limite de faltas%'" ++
        [';'] ∧
    containsSub (str " LIMIT 100")
      ((dba_guard
          ⟨none, false,
            str "SELECT nome FROM disciplinas WHERE descricao ILIKE '%limite de faltas%'",
            none, false⟩).1.generated_sql) = false :=
  ⟨by decide, by decide, by decide, by decide, by decide⟩

/-- C6 (amended): the Guard's cap test is the case-insensitive substring
`limit`, not the presence of a row-limit clause.  Part one: for every select
statement in which that substring does not occur and which does not match the
select-count pattern, the default cap `" LIMIT 100;"` is appended (after
stripping trailing semicolons).  Part two: a `SELECT COUNT(...)` statement
never receives a cap — its text is at most terminated with a semicolon.
A statement whose text contains `limit` inside another word (such as
`limite`) receives no cap even when it lacks a row-limit clause. -/
theorem C6_row_cap_policy :
    (∀ st : GuardState, st.error = none → st.from_cache = false →
      containsSub (str "limit") (lowerL st.generated_sql) = false →
      containsSub (str "select") (lowerL st.generated_sql) = true →
      searchSelectCount (lowerL st.generated_sql) = false →
      (dba_guard st).1.generated_sql =
        rstripChar ';' st.generated_sql ++ str " LIMIT 100;") ∧
    (∀ st : GuardState, st.error = none → st.from_cache = false →
      startsWithL (str "select count(") (lowerL st.generated_sql) = true →
      ((dba_guard st).1.generated_sql = st.generated_sql ∨
        (dba_guard st).1.generated_sql = st.generated_sql ++ [';'])) := by
  constructor
  · intro st h1 h2 hlim hsel hcnt
    rw [dba_guard_sql_eq st h1 h2]
    have hGL : guardLimit st.generated_sql =
        rstripChar ';' st.generated_sql ++ str " LIMIT 100;" := by
      unfold guardLimit
      rw [hlim, hsel, hcnt]
      simp
    unfold guardSql
    rw [hGL, show str " LIMIT 100;" = str " LIMIT 100" ++ [';'] from rfl,
      ← List.append_assoc, rstripWS_append_semi, endsWithL_append_semi]
    simp [List.append_assoc]
  · intro st h1 h2 hpre
    obtain ⟨t, ht⟩ := (startsWithL_iff _ _).mp hpre
    have hsc : searchSelectCount (lowerL st.generated_sql) = true := by
      rw [ht]
      exact searchSelectCount_of_count_prefix t
    rw [dba_guard_sql_eq st h1 h2]
    have hGL : guardLimit st.generated_sql = st.generated_sql := by
      unfold guardLimit
      rw [hsc]
      simp
    unfold guardSql
    rw [hGL]
    by_cases hend : endsWithL [';'] (rstripWS st.generated_sql) = true
    · left
      rw [hend]
      simp
    · right
      simp only [Bool.not_eq_true] at hend
      rw [hend]
      simp

theorem C6_row_cap_policy_witness :
    (dba_guard
        ⟨none, false, str "SELECT nome FROM alunos WHERE ra = :ra", none, false⟩).1.generated_sql =
      rstripChar ';' (str "SELECT nome FROM alunos WHERE ra = :ra") ++ str " LIMIT 100;" ∧
    ((dba_guard
        ⟨none, false, str "SELECT COUNT(*) FROM matriculas WHERE ra = :ra", none,
          false⟩).1.generated_sql =
        str "SELECT COUNT(*) FROM matriculas WHERE ra = :ra" ∨
      (dba_guard
        ⟨none, false, str "SELECT COUNT(*) FROM matriculas WHERE ra = :ra", none,
          false⟩).1.generated_sql =
        str "SELECT COUNT(*) FROM matriculas WHERE ra = :ra" ++ [';']) :=
  ⟨C6_row_cap_policy.1 _ rfl rfl (by decide) (by decide) (by decide),
   C6_row_cap_policy.2 _ rfl rfl (by decide)⟩

theorem C10_sanitize_stable_witness :
    sanitize_and_parameterize_sql (str "SELECT faltas FROM matriculas WHERE ra = :user_id")
        [("user_id", "123")] =
      (str "SELECT faltas FROM matriculas WHERE ra = :user_id", [("dummy", "1")]) :=
  C10_sanitize_stable _ _ (by decide) (by decide) (by decide) (by decide) (by decide)
    (by decide) (by decide) (by decide)

theorem reEnd_chars {l lf : List Char} (h : reEnd l = some lf) :
    ∀ c ∈ l, okChar c = true := by
  intro c hc
  cases l with
  | nil => simp at hc
  | cons a r =>
    simp only [reEnd] at h
    by_cases ha : (a == '\n' && r.isEmpty) = true
    · obtain ⟨ha1, ha2⟩ : (a == '\n') = true ∧ r.isEmpty = true := by simpa using ha
      have ha1' : a = '\n' := eq_of_beq ha1
      have ha2' : r = [] := by
        cases r with
        | nil => rfl
        | cons x xs => simp at ha2
      subst ha1'
      subst ha2'
      simp at hc
      subst hc
      decide
    · rw [if_neg ha] at h
      exact absurd h (by simp)

theorem limTail_chars (l : List Char) : ∀ {lf : List Char}, limTail l = some lf →
    ∀ c ∈ l, okChar c = true := by
  induction l with
  | nil =>
    intro lf h c hc
    simp at hc
  | cons a r ih =>
    intro lf h c hc
    simp only [limTail] at h
    by_cases hsp : isPySpace a = true
    · rw [if_pos hsp] at h
      rcases hm : limTail r with _ | lf2 <;> rw [hm] at h
      · exact reEnd_chars h c hc
      · rcases List.mem_cons.mp hc with rfl | hc2
        · simp [okChar, hsp]
        · exact ih hm c hc2
    · rw [if_neg hsp] at h
      by_cases hsc : (a == ';') = true
      · rw [if_pos hsc] at h
        rcases List.mem_cons.mp hc with rfl | hc2
        · simp [okChar, hsc]
        · exact reEnd_chars h c hc2
      · rw [if_neg hsc] at h
        exact reEnd_chars h c hc

theorem limDigitsRest_chars (l : List Char) : ∀ {lf : List Char},
    limDigitsRest l = some lf → ∀ c ∈ l, okChar c = true := by
  induction l with
  | nil =>
    intro lf h c hc
    simp at hc
  | cons a r ih =>
    intro lf h c hc
    simp only [limDigitsRest] at h
    by_cases hd : a.isDigit = true
    · rw [if_pos hd] at h
      rcases List.mem_cons.mp hc with rfl | hc2
      · simp [okChar, hd]
      · exact ih h c hc2
    · rw [if_neg hd] at h
      exact limTail_chars _ h c hc

theorem limSpacesRest_chars (l : List Char) : ∀ {lf : List Char},
    limSpacesRest l = some lf → ∀ c ∈ l, okChar c = true := by
  induction l with
  | nil =>
    intro lf h c hc
    simp at hc
  | cons a r ih =>
    intro lf h c hc
    simp only [limSpacesRest] at h
    by_cases hsp : isPySpace a = true
    · rw [if_pos hsp] at h
      rcases List.mem_cons.mp hc with rfl | hc2
      · simp [okChar, hsp]
      · exact ih h c hc2
    · rw [if_neg hsp] at h
      by_cases hd : a.isDigit = true
      · rw [if_pos hd] at h
        rcases List.mem_cons.mp hc with rfl | hc2
        · simp [okChar, hd]
        · exact limDigitsRest_chars _ h c hc2
      · rw [if_neg hd] at h
        exact absurd h (by simp)

theorem limSpaces_chars (l : List Char) {lf : List Char} (h : limSpaces l = some lf) :
    ∀ c ∈ l, okChar c = true := by
  intro c hc
  cases l with
  | nil => simp at hc
  | cons a r =>
    simp only [limSpaces] at h
    by_cases hsp : isPySpace a = true
    · rw [if_pos hsp] at h
      rcases List.mem_cons.mp hc with rfl | hc2
      · simp [okChar, hsp]
      · exact limSpacesRest_chars _ h c hc2
    · rw [if_neg hsp] at h
      exact absurd h (by simp)

theorem matchLimit_mid_none (q r : List Char) :
    matchLimit (q ++ ' ' :: 'L' :: r) = none := by
  rcases q with _ | ⟨a, _ | ⟨b, _ | ⟨c, _ | ⟨d, _ | ⟨e, q5⟩⟩⟩⟩⟩
  · rfl
  · simp [matchLimit, mLimI, show ((' ' : Char) == 'I') = false from rfl]
  · simp [matchLimit, mLimI, mLimM, show ((' ' : Char) == 'M') = false from rfl]
  · simp [matchLimit, mLimI, mLimM, mLimI2, show ((' ' : Char) == 'I') = false from rfl]
  · simp [matchLimit, mLimI, mLimM, mLimI2, show ((' ' : Char) == 'T') = false from rfl]
  · rcases hls : limSpaces (q5 ++ ' ' :: 'L' :: r) with _ | lf
    · simp [matchLimit, mLimI, mLimM, mLimI2, hls]
    · exfalso
      have := limSpaces_chars _ hls 'L' (by simp)
      exact absurd this (by decide)

theorem digit_not_pyspace {c : Char} (h : c.isDigit = true) : isPySpace c = false := by
  by_contra hn
  rw [Bool.not_eq_false] at hn
  simp only [isPySpace, Bool.or_eq_true, beq_iff_eq] at hn
  rcases hn with ((((rfl | rfl) | rfl) | rfl) | rfl) | rfl <;> exact absurd h (by decide)

theorem limDigitsRest_digits (ds : List Char) (h : ∀ c ∈ ds, c.isDigit = true)
    (fin : List Char) (hfin : fin = [] ∨ fin = [';']) :
    limDigitsRest (ds ++ fin) = some [] := by
  induction ds with
  | nil =>
    rcases hfin with rfl | rfl
    · rfl
    · rfl
  | cons d ds ih =>
    have hd : d.isDigit = true := h d (by simp)
    have hstep : limDigitsRest ((d :: ds) ++ fin) = limDigitsRest (ds ++ fin) := by
      simp [List.cons_append, limDigitsRest, hd]
    rw [hstep]
    exact ih (fun c hc => h c (by simp [hc]))

theorem matchLimit_cap (ds fin : List Char) (h1 : ds ≠ [])
    (h2 : ∀ c ∈ ds, c.isDigit = true) (hfin : fin = [] ∨ fin = [';']) :
    matchLimit ('L' :: 'I' :: 'M' :: 'I' :: 'T' :: ' ' :: (ds ++ fin)) = some [] := by
  obtain ⟨d, ds', rfl⟩ : ∃ d ds', ds = d :: ds' := by
    cases ds with
    | nil => exact absurd rfl h1
    | cons d ds' => exact ⟨d, ds', rfl⟩
  have hd : d.isDigit = true := h2 d (by simp)
  have hnd : isPySpace d = false := digit_not_pyspace hd
  have hdr : limDigitsRest (ds' ++ fin) = some [] :=
    limDigitsRest_digits ds' (fun c hc => h2 c (by simp [hc])) fin hfin
  simp [matchLimit, mLimI, mLimM, mLimI2, limSpaces, limSpacesRest, List.cons_append,
    show isPySpace ' ' = true from rfl, hnd, hd, hdr]

theorem stripLimitAux_cap (ds fin : List Char) (h1 : ds ≠ [])
    (h2 : ∀ c ∈ ds, c.isDigit = true) (hfin : fin = [] ∨ fin = [';']) :
    ∀ (p : List Char) (prev : Option Char),
      stripLimitAux prev
          (p ++ ' ' :: 'L' :: 'I' :: 'M' :: 'I' :: 'T' :: ' ' :: (ds ++ fin)) =
        p ++ [' '] := by
  intro p
  induction p with
  | nil =>
    intro prev
    have hm : matchLimit ('L' :: 'I' :: 'M' :: 'I' :: 'T' :: ' ' :: (ds ++ fin)) = some [] :=
      matchLimit_cap ds fin h1 h2 hfin
    have hm0 : matchLimit (' ' :: 'L' :: 'I' :: 'M' :: 'I' :: 'T' :: ' ' :: (ds ++ fin)) =
        none := rfl
    simp [stripLimitAux, hm0, hm, boundaryOk, show isWordChar ' ' = false from rfl]
  | cons a p ih =>
    intro prev
    have hmid : matchLimit
        (a :: (p ++ ' ' :: 'L' :: 'I' :: 'M' :: 'I' :: 'T' :: ' ' :: (ds ++ fin))) = none := by
      have := matchLimit_mid_none (a :: p)
        ('I' :: 'M' :: 'I' :: 'T' :: ' ' :: (ds ++ fin))
      simpa using this
    have hstep : stripLimitAux prev
        (a :: (p ++ ' ' :: 'L' :: 'I' :: 'M' :: 'I' :: 'T' :: ' ' :: (ds ++ fin))) =
        a :: stripLimitAux (some a)
          (p ++ ' ' :: 'L' :: 'I' :: 'M' :: 'I' :: 'T' :: ' ' :: (ds ++ fin)) := by
      simp only [stripLimitAux]
      rw [hmid]
      simp
    simp only [List.cons_append, hstep, ih]

/-- C7: the first thing `execute_query` does to the incoming statement is
`re.sub(r'\bLIMIT\s+\d+\s*;?$', '', sql)`: for every statement that ends with
a `LIMIT n` clause — with or without the trailing semicolon, so in particular
the `" LIMIT 100;"` cap the Guard appends — the trailing clause is removed
before the final statement is built, leaving only the part before the
keyword. -/
theorem C7_trailing_limit_removed :
    (∀ (p ds : List Char), ds ≠ [] → (∀ c ∈ ds, c.isDigit = true) →
      stripTrailingLimit (p ++ str " LIMIT " ++ ds ++ [';']) = p ++ [' ']) ∧
    (∀ (p ds : List Char), ds ≠ [] → (∀ c ∈ ds, c.isDigit = true) →
      stripTrailingLimit (p ++ str " LIMIT " ++ ds) = p ++ [' ']) := by
  constructor
  · intro p ds h1 h2
    have h := stripLimitAux_cap ds [';'] h1 h2 (Or.inr rfl) p none
    rw [List.append_assoc, List.append_assoc]
    exact h
  · intro p ds h1 h2
    have h := stripLimitAux_cap ds [] h1 h2 (Or.inl rfl) p none
    rw [List.append_nil] at h
    rw [List.append_assoc]
    exact h

theorem C7_trailing_limit_removed_witness :
    stripTrailingLimit
        (str "SELECT nome FROM alunos" ++ str " LIMIT " ++ str "100" ++ [';']) =
      str "SELECT nome FROM alunos" ++ [' '] :=
  C7_trailing_limit_removed.1 _ _ (by decide) (by decide)

end Portal
